import Mathlib

/-
Verification of the visitor-pattern example in 8_SOLID.CPP.

The source defines a closed hierarchy (Animal with concrete variants Cat and
Dog), a visitor interface AnimalVisitor with one pure-virtual overload of
visit per concrete variant, concrete accept overrides on Cat and Dog that
each call av.visit(*this), a concrete LifeSpanVisitor holding an int
reference that its handlers assign (10 for Cat, 13 for Dog), and a driver
exUseVisitor that holds a Cat through the Animal base and accepts a
LifeSpanVisitor over a local int years initialized to 10.

Shallow embedding: Cat and Dog have no data members in the source (their
bodies are comment stubs), so they are empty structures; the runtime Animal
object is the closed sum of the two concrete variants, and the virtual
accept dispatch is the match on that sum. The mutable int reference held by
a visitor is modelled by explicit state passing: a visitor over state sigma
maps the visited object and the state to the (possibly updated) object and
new state, mirroring that visit receives the variant by non-const reference
and may mutate the referenced slot.
-/

namespace SolidVisitor

/-- The concrete variant Cat of the source. Its body is a comment stub with
no data members, so the embedding is an empty structure. -/
structure Cat where
deriving DecidableEq

/-- The concrete variant Dog of the source. Its body is a comment stub with
no data members, so the embedding is an empty structure. -/
structure Dog where
deriving DecidableEq

/-- A runtime Animal object: the closed sum of the two concrete variants of
the hierarchy. -/
inductive Animal where
  | cat : Cat → Animal
  | dog : Dog → Animal
deriving DecidableEq

/-- The tag of the concrete variant an Animal object is. -/
inductive AnimalKind where
  | cat
  | dog
deriving DecidableEq

/-- The runtime (dynamic) kind of an Animal object. -/
def Animal.kind : Animal → AnimalKind
  | .cat _ => .cat
  | .dog _ => .dog

/-- The AnimalVisitor interface of the source: one handler per concrete
variant (the two visit overloads, visit(Cat and) and visit(Dog and)). The
visitor is const but holds references through which its handlers may write,
so each handler is modelled as a state transformer over the visitor state
sigma; it also receives the variant by non-const reference, hence returns
the (possibly updated) variant. -/
structure AnimalVisitor (σ : Type) where
  visitCat : Cat → σ → Cat × σ
  visitDog : Dog → σ → Dog × σ

/-- The virtual accept dispatch of the source. Every concrete override calls
av.visit on the receiver at its own concrete type, so dispatch on the
runtime variant selects the handler of that variant. -/
def Animal.accept {σ : Type} (a : Animal) (av : AnimalVisitor σ) (s : σ) :
    Animal × σ :=
  match a with
  | .cat c =>
      let r := av.visitCat c s
      (Animal.cat r.1, r.2)
  | .dog d =>
      let r := av.visitDog d s
      (Animal.dog r.1, r.2)

/-- The LifeSpanVisitor of the source. Its state is the referenced int slot;
visit(Cat and) assigns 10 to the slot, visit(Dog and) assigns 13, and
neither touches the visited variant. -/
def LifeSpanVisitor : AnimalVisitor Int where
  visitCat := fun c _ => (c, 10)
  visitDog := fun d _ => (d, 13)

/-- The driver exUseVisitor of the source: years starts at 10, a Cat is held
through the Animal base as the unique owner, accept is invoked with a
LifeSpanVisitor over years, and the final value of years is the observable
result (the printed lifespan). -/
def exUseVisitor : Int :=
  let years : Int := 10
  let a : Animal := Animal.cat Cat.mk
  (a.accept LifeSpanVisitor years).2

/-- exUseVisitor with the initial value of years generalized, to separate
the contribution of the handler from the initialization of the slot. -/
def exUseVisitorInit (j : Int) : Int :=
  let a : Animal := Animal.cat Cat.mk
  (a.accept LifeSpanVisitor j).2

/-- Which handler of a visitor fires during a dispatch. -/
inductive Handler where
  | catHandler
  | dogHandler
deriving DecidableEq

/-- The handler a kind is registered with: Cat with visit(Cat and), Dog with
visit(Dog and). -/
def handlerFor : AnimalKind → Handler
  | .cat => .catHandler
  | .dog => .dogHandler

/-- Instrumentation of an arbitrary visitor: it behaves exactly like the
given visitor but additionally appends, to a log carried in the state, a
record of each handler invocation. -/
def traceVisitor {σ : Type} (v : AnimalVisitor σ) :
    AnimalVisitor (σ × List Handler) where
  visitCat := fun c s =>
    let r := v.visitCat c s.1
    (r.1, (r.2, s.2 ++ [Handler.catHandler]))
  visitDog := fun d s =>
    let r := v.visitDog d s.1
    (r.1, (r.2, s.2 ++ [Handler.dogHandler]))

/-- A single assignment through the int reference, instrumented with a write
counter: the slot receives the assigned value and the count of writes to the
slot goes up by one. -/
def writeSlot (v : Int) : Int × Nat → Int × Nat
  | (_, n) => (v, n + 1)

/-- LifeSpanVisitor with its one assignment per handler instrumented by
writeSlot, so the number of writes to the caller-supplied slot is observable
in the state. -/
def LifeSpanVisitorCounting : AnimalVisitor (Int × Nat) where
  visitCat := fun c s => (c, writeSlot 10 s)
  visitDog := fun d s => (d, writeSlot 13 s)

/-- The accept dispatch written against exception-aware semantics: an
embedding of fallible code returns Except, and since no operation on any
path of accept or of a handler call can throw or otherwise fail in the
source, every path produces ok. -/
def Animal.acceptE {σ : Type} (a : Animal) (av : AnimalVisitor σ) (s : σ) :
    Except String (Animal × σ) :=
  match a with
  | .cat c =>
      let r := av.visitCat c s
      Except.ok (Animal.cat r.1, r.2)
  | .dog d =>
      let r := av.visitDog d s
      Except.ok (Animal.dog r.1, r.2)

/-- The type of the handler a concrete visitor over state sigma must supply
for a given kind. -/
def HandlerType (σ : Type) : AnimalKind → Type
  | .cat => Cat → σ → Cat × σ
  | .dog => Dog → σ → Dog × σ

/-- The handler family a visitor supplies: one handler per variant kind. -/
def visitorToHandlers (σ : Type) (v : AnimalVisitor σ) :
    (k : AnimalKind) → HandlerType σ k
  | .cat => v.visitCat
  | .dog => v.visitDog

end SolidVisitor

namespace SolidVisitor

/-- Claim C1: for every concrete variant instance of kind K and every
visitor, accept invokes exactly the visitor's handler for K - visit(Cat and)
for a Cat, visit(Dog and) for a Dog - and never the handler for any other
kind: the invocation log of the instrumented visitor after accept is exactly
the one-element list holding the handler registered for the runtime kind. -/
theorem accept_invokes_exactly_handler_of_kind {σ : Type}
    (v : AnimalVisitor σ) (a : Animal) (s : σ) :
    ((a.accept (traceVisitor v) (s, [])).2).2 = [handlerFor a.kind] := by
  cases a <;> rfl

/-- Claim C2: when a Cat is visited by the LifeSpanVisitor, the
caller-supplied output slot holds 10 after accept returns, regardless of its
prior contents. -/
theorem cat_lifespan_is_ten (c : Cat) (s : Int) :
    ((Animal.cat c).accept LifeSpanVisitor s).2 = 10 := rfl

/-- Claim C3: when a Dog is visited by the LifeSpanVisitor, the
caller-supplied output slot holds 13 after accept returns, regardless of its
prior contents. -/
theorem dog_lifespan_is_thirteen (d : Dog) (s : Int) :
    ((Animal.dog d).accept LifeSpanVisitor s).2 = 13 := rfl

/-- Claim C4: dispatch is dynamic on the runtime kind, not static on the
handle's type: any Animal whose runtime kind is Cat - however it is held -
ends accept with the Cat handler's value 10 in the slot, and in particular
the driver exUseVisitor, which holds its Cat only through the Animal base,
leaves years equal to 10. -/
theorem dispatch_is_dynamic_exUseVisitor :
    exUseVisitor = 10 ∧
      ∀ (a : Animal) (s : Int), a.kind = AnimalKind.cat →
        (a.accept LifeSpanVisitor s).2 = 10 := by
  refine ⟨rfl, ?_⟩
  intro a s h
  cases a with
  | cat c => rfl
  | dog d => exact absurd h (by simp [Animal.kind])

/-- Witness for claim C4 at a concrete input: a Cat held as an Animal, slot
starting at 0, ends accept with the slot equal to 10. -/
theorem dispatch_is_dynamic_exUseVisitor_witness :
    ((Animal.cat Cat.mk).accept LifeSpanVisitor 0).2 = 10 :=
  dispatch_is_dynamic_exUseVisitor.2 (Animal.cat Cat.mk) 0 rfl

/-- Claim C5: invoking accept twice with the LifeSpanVisitor on the same
variant yields the same output value both times - the computation is
deterministic and carries no hidden state between invocations: the second
invocation, run on the variant and slot left by the first, leaves the slot
with the very value the first invocation produced. -/
theorem accept_twice_same_output (a : Animal) (s : Int) :
    (((a.accept LifeSpanVisitor s).1).accept LifeSpanVisitor
        (a.accept LifeSpanVisitor s).2).2
      = (a.accept LifeSpanVisitor s).2 := by
  cases a <;> rfl

/-- Claim C6: each invocation of the LifeSpanVisitor handler reached via
accept mutates the caller-supplied output slot exactly once - the write
counter goes up by exactly one - and mutates no other caller-visible state:
the variant is returned unchanged, and the slot's value agrees with the
uninstrumented LifeSpanVisitor. -/
theorem handler_writes_slot_exactly_once (a : Animal) (i : Int) (n : Nat) :
    ((a.accept LifeSpanVisitorCounting (i, n)).2).2 = n + 1 ∧
      (a.accept LifeSpanVisitorCounting (i, n)).1 = a ∧
      ((a.accept LifeSpanVisitorCounting (i, n)).2).1
        = (a.accept LifeSpanVisitor i).2 := by
  cases a <;> exact ⟨rfl, rfl, rfl⟩

/-- Witness for claim C6 at a concrete input: accepting a Dog with the
counting visitor over slot 0 and write count 0 performs exactly one write,
leaves the variant unchanged, and agrees with LifeSpanVisitor. -/
theorem handler_writes_slot_exactly_once_witness :
    (((Animal.dog Dog.mk).accept LifeSpanVisitorCounting (0, 0)).2).2 = 0 + 1 ∧
      ((Animal.dog Dog.mk).accept LifeSpanVisitorCounting (0, 0)).1
        = Animal.dog Dog.mk ∧
      (((Animal.dog Dog.mk).accept LifeSpanVisitorCounting (0, 0)).2).1
        = ((Animal.dog Dog.mk).accept LifeSpanVisitor 0).2 :=
  handler_writes_slot_exactly_once (Animal.dog Dog.mk) 0 0

/-- Claim C7: no operation of the visitor mechanism can fail at runtime:
accept on every concrete variant with every visitor and every state, under
exception-aware semantics, returns ok of exactly the pure dispatch result -
there is no error result, exception, or runtime failure mode on any path. -/
theorem accept_never_fails {σ : Type} (v : AnimalVisitor σ) (a : Animal)
    (s : σ) : a.acceptE v s = Except.ok (a.accept v s) := by
  cases a <;> rfl

/-- Claim C8: the concrete variant kinds and the visitor handler methods
stay in exact 1:1 correspondence: taking a visitor to the family of handlers
it supplies, indexed by kind, is a bijection onto the total handler
families, so every visitor value supplies a handler for every one of the two
kinds - a visitor missing either handler is not constructible, rejected
before any execution, rather than skipped at call time. -/
theorem visitor_handlers_one_to_one (σ : Type) :
    Function.Bijective (visitorToHandlers σ) := by
  constructor
  · intro v w h
    cases v
    cases w
    have hc := congrFun h AnimalKind.cat
    have hd := congrFun h AnimalKind.dog
    simp only [visitorToHandlers] at hc hd
    simp [hc, hd]
  · intro f
    refine ⟨⟨f AnimalKind.cat, f AnimalKind.dog⟩, ?_⟩
    funext k
    cases k <;> rfl

/-- Claim C9: the final value of the output slot after accept with the
LifeSpanVisitor does not depend on the slot's initial value - for any two
initial values and the same variant, both runs end with the same output -
and in particular the driver's result 10 comes from the Cat handler, not
from years being initialized to 10: with any initial value the driver still
produces 10. -/
theorem output_independent_of_initial_slot :
    (∀ (a : Animal) (s t : Int),
        (a.accept LifeSpanVisitor s).2 = (a.accept LifeSpanVisitor t).2) ∧
      ∀ j : Int, exUseVisitorInit j = 10 := by
  constructor
  · intro a s t
    cases a <;> rfl
  · intro j
    rfl

/-- Claim C10: accepting a visitor leaves the visited variant unchanged:
although the handlers receive the variant by non-const reference, the
LifeSpanVisitor handlers never read or write any state of the Cat or Dog
object, so the variant accept returns is the variant it started from. -/
theorem accept_leaves_variant_unchanged (a : Animal) (s : Int) :
    (a.accept LifeSpanVisitor s).1 = a := by
  cases a <;> rfl

end SolidVisitor
